import Mathlib

/-!
Review routes (`src/Routes/ReviewRoutes.js`).

A shallow embedding of the six request handlers of the review router and the
properties of its CRUD contract.

The handlers are asynchronous JavaScript functions that talk to a document
store. Each handler is embedded as a finite interaction tree (`Prog`): a leaf is
the way the handler ends (a JSON response, or an error handed to `next`), an
inner node is one awaited store call together with the continuation that
receives the store's reply (`Except.ok` for a resolved promise, `Except.error`
for a rejected one, which is what the handler's `catch` block sees).
`run` executes such a tree against an arbitrary store, threading the store's
state and recording every store call that is made.

External collaborators are parameters: the identifier validator
(`mongoose.Types.ObjectId.isValid`), the document constructor (`new Review`),
the clock (`new Date()`) and the store itself. Logging calls are omitted.
A document is handed to the store by value: the handler keeps responding with
the document it built, and whatever hooks of the schema (which is not among the
sources) might add to the in-memory object during `save` is not modelled.
-/

namespace ReviewRoutes

/-! ## Data model -/

/-- JavaScript values as they reach the handlers (request parameters and
fields of a parsed JSON body). `undefined` is what destructuring yields for a
key that the body does not have. The handlers never compute with a value: they
only test truthiness, compare with `undefined` and pass the value on, so the
payload of a number is kept as an integer and objects and arrays are kept as
their JSON text. -/
inductive JSVal where
  | undefined
  | null
  | bool (b : Bool)
  | num (n : Int)
  | str (s : String)
  | composite (json : String)
  deriving DecidableEq, Repr

/-- JavaScript `ToBoolean`: what `if (v)` and `!v` test. -/
def JSVal.truthy : JSVal → Bool
  | .undefined => false
  | .null => false
  | .bool b => b
  | .num n => n != 0
  | .str s => !s.data.isEmpty
  | .composite _ => true

/-- A review document as the handlers hold it in memory. The fields the
handlers assign from the request body hold raw JavaScript values. -/
structure Review where
  id : JSVal
  Description : JSVal
  User : JSVal
  Movie : JSVal
  LikeCount : JSVal
  DislikeCount : JSVal
  createdAt : Nat
  updatedAt : Nat
  deriving DecidableEq, Repr

/-- Modelled from the spec: the Error Signal, class `HttpError` of
`Models/http-errors`, which is not among the sources. It carries a
human-readable message and an HTTP status code; the code is optional because
one handler builds the error with a message only. -/
structure HttpError where
  message : String
  code : Option Nat
  deriving DecidableEq, Repr

/-- Modelled from the spec: the HTTP status carried by the Error Signal,
"default `500` when unspecified". -/
def HttpError.status (e : HttpError) : Nat :=
  e.code.getD 500

/-- An error thrown by the store (a rejected promise): `err.name` and
`err.message`. -/
structure JSError where
  name : String
  message : String
  deriving DecidableEq, Repr

/-- The JSON bodies the handlers send. `reviews none` is the body
`{ reviews }` for a falsy `reviews`. -/
inductive Body where
  | messageReview (message : String) (review : Review)
  | message (message : String)
  | reviews (rs : Option (List Review))
  | review (r : Review)
  deriving DecidableEq, Repr

/-- How a handler ends: `res.status(s).json(body)` (`res.json(body)` alone
sends status `200`), or `next(error)`. -/
inductive Outcome where
  | json (status : Nat) (body : Body)
  | next (error : HttpError)
  deriving DecidableEq, Repr

/-- The HTTP status of an outcome. -/
def Outcome.status : Outcome → Nat
  | .json s _ => s
  | .next e => e.status

/-- Whether the outcome is an error handed to the error-reporting layer. -/
def Outcome.isError : Outcome → Bool
  | .json _ _ => false
  | .next _ => true

/-- The `populate(path, select)` requests chained on a query. -/
abbrev Populate := List (String × String)

/-- One store call, as recorded in the trace of a run. `find none` is
`Review.find()`, `find (some m)` is `Review.find({ Movie: m })`. -/
inductive StoreOp where
  | save (doc : Review)
  | find (filter : Option JSVal) (populate : Populate)
  | findById (id : JSVal) (populate : Populate)
  | findByIdAndDelete (id : JSVal)
  deriving DecidableEq, Repr

/-- A handler as an interaction tree over store calls. The reply of a query is
an `Option` so that a falsy reply (`null`) is representable: the handlers test
`!reviews` and `!review`. -/
inductive Prog where
  | done (o : Outcome)
  | save (doc : Review) (k : Except JSError Unit → Prog)
  | find (filter : Option JSVal) (populate : Populate)
      (k : Except JSError (Option (List Review)) → Prog)
  | findById (id : JSVal) (populate : Populate)
      (k : Except JSError (Option Review) → Prog)
  | findByIdAndDelete (id : JSVal) (k : Except JSError (Option Review) → Prog)

/-- A store: each operation returns its reply and the next store state. -/
structure Store (σ : Type) where
  save : Review → σ → Except JSError Unit × σ
  find : Option JSVal → Populate → σ → Except JSError (Option (List Review)) × σ
  findById : JSVal → Populate → σ → Except JSError (Option Review) × σ
  findByIdAndDelete : JSVal → σ → Except JSError (Option Review) × σ

/-- The result of running a handler: how it ended, the store calls it made
(in order) and the store state it left. -/
structure Result (σ : Type) where
  outcome : Outcome
  trace : List StoreOp
  state : σ

/-- Prepend a store call to the trace of a result. -/
def Result.after {σ : Type} (op : StoreOp) (r : Result σ) : Result σ :=
  { r with trace := op :: r.trace }

/-- Run a handler against a store from a given store state. -/
def run {σ : Type} (st : Store σ) : Prog → σ → Result σ
  | .done o, s => ⟨o, [], s⟩
  | .save doc k, s =>
    Result.after (.save doc) (run st (k (st.save doc s).1) (st.save doc s).2)
  | .find f p k, s =>
    Result.after (.find f p) (run st (k (st.find f p s).1) (st.find f p s).2)
  | .findById i p k, s =>
    Result.after (.findById i p) (run st (k (st.findById i p s).1) (st.findById i p s).2)
  | .findByIdAndDelete i k, s =>
    Result.after (.findByIdAndDelete i)
      (run st (k (st.findByIdAndDelete i s).1) (st.findByIdAndDelete i s).2)

/-! ## Request bodies -/

/-- The fields `POST /` destructures from the body. -/
structure CreateBody where
  Description : JSVal
  User : JSVal
  Movie : JSVal
  deriving DecidableEq, Repr

/-- The fields `PATCH /:id` destructures from the body. A field is present in
the body exactly when its value is not `undefined`. -/
structure PatchBody where
  Description : JSVal
  LikeCount : JSVal
  DislikeCount : JSVal
  deriving DecidableEq, Repr

/-! ## The handlers -/

/-- `router.post("/")`: create a new review. -/
def postRoot (isValid : JSVal → Bool) (newReview : JSVal → JSVal → JSVal → Review)
    (body : CreateBody) : Prog :=
  if !isValid body.User || !isValid body.Movie then
    .done (.next ⟨"Invalid User or Movie ID format.", some 400⟩)
  else
    .save (newReview body.Description body.User body.Movie) fun reply =>
      match reply with
      | .ok _ =>
        .done (.json 201 (.messageReview "Review created successfully"
          (newReview body.Description body.User body.Movie)))
      | .error err =>
        if err.name = "ValidationError" then
          .done (.next ⟨"Validation error: " ++ err.message, some 400⟩)
        else
          .done (.next ⟨"Creating review failed, please try again.", some 500⟩)

/-- `router.get("/")`: get all reviews. -/
def getRoot : Prog :=
  .find none [("User", "UserName"), ("Movie", "Title")] fun reply =>
    match reply with
    | .ok reviews => .done (.json 200 (.reviews reviews))
    | .error _ =>
      .done (.next ⟨"Fetching reviews failed, please try again later.", some 500⟩)

/-- `router.get("/Movie/:id")`: get the reviews of a movie. The handler runs
after the `auth` middleware has let the request through. -/
def getMovieById (isValid : JSVal → Bool) (MovieId : JSVal) : Prog :=
  if !isValid MovieId then
    .done (.next ⟨"Invalid Movie ID format.", some 400⟩)
  else
    .find (some MovieId) [("User", "UserName"), ("Movie", "Name")] fun reply =>
      match reply with
      | .ok none => .done (.next ⟨"No reviews found for this movie.", some 404⟩)
      | .ok (some reviews) => .done (.json 200 (.reviews (some reviews)))
      | .error _ => .done (.next ⟨"Fetching Reviews Failed ,Please Try again", none⟩)

/-- `router.get("/:id")`: get a review by id. -/
def getById (isValid : JSVal → Bool) (reviewId : JSVal) : Prog :=
  if !isValid reviewId then
    .done (.next ⟨"Invalid review ID format.", some 400⟩)
  else
    .findById reviewId [("User", "UserName"), ("Movie", "Name")] fun reply =>
      match reply with
      | .ok none => .done (.next ⟨"Review not found.", some 404⟩)
      | .ok (some review) => .done (.json 200 (.review review))
      | .error _ =>
        .done (.next ⟨"Fetching review failed, please try again later.", some 500⟩)

/-- The field assignments of `router.patch("/:id")` on the document it found
(lines 116-120 of the source), in source order. -/
def assignFields (now : Nat) (body : PatchBody) (review : Review) : Review :=
  let review :=
    if body.Description.truthy then { review with Description := body.Description }
    else review
  let review :=
    if body.LikeCount ≠ .undefined then { review with LikeCount := body.LikeCount }
    else review
  let review :=
    if body.DislikeCount ≠ .undefined then { review with DislikeCount := body.DislikeCount }
    else review
  { review with updatedAt := now }

/-- `router.patch("/:id")`: update a review. `now` is the value of
`new Date()`. -/
def patchById (isValid : JSVal → Bool) (now : Nat) (reviewId : JSVal)
    (body : PatchBody) : Prog :=
  if !isValid reviewId then
    .done (.next ⟨"Invalid review ID format.", some 400⟩)
  else
    .findById reviewId [] fun reply =>
      match reply with
      | .ok none => .done (.next ⟨"Review not found.", some 404⟩)
      | .ok (some review) =>
        .save (assignFields now body review) fun saved =>
          match saved with
          | .ok _ =>
            .done (.json 200 (.messageReview "Review updated successfully"
              (assignFields now body review)))
          | .error _ =>
            .done (.next ⟨"Updating review failed, please try again.", some 500⟩)
      | .error _ =>
        .done (.next ⟨"Updating review failed, please try again.", some 500⟩)

/-- `router.delete("/:id")`: delete a review. -/
def deleteById (isValid : JSVal → Bool) (reviewId : JSVal) : Prog :=
  if !isValid reviewId then
    .done (.next ⟨"Invalid review ID format.", some 400⟩)
  else
    .findByIdAndDelete reviewId fun reply =>
      match reply with
      | .ok _ => .done (.json 200 (.message "Review deleted successfully"))
      | .error _ =>
        .done (.next ⟨"Deleting review failed, please try again.", some 500⟩)

/-! ## Concrete collaborators used to instantiate the theorems -/

/-- A sample identifier validator: a string of 24 hexadecimal digits. -/
def hex24 : JSVal → Bool
  | .str s => s.data.length == 24 &&
      s.data.all fun c => c.isDigit || ('a' ≤ c && c ≤ 'f') || ('A' ≤ c && c ≤ 'F')
  | _ => false

/-- A sample document constructor: fixed id, zero counters, time stamp `7`. -/
def sampleNew (d u m : JSVal) : Review :=
  ⟨.str "65f0c0ffee65f0c0ffee0001", d, u, m, .num 0, .num 0, 7, 7⟩

/-- A small in-memory store over a list of documents. `save` rejects a
document whose description is falsy with a `ValidationError` and otherwise
replaces the document of the same id (or appends it); queries ignore the
populate requests. -/
def memStore : Store (List Review) where
  save doc s :=
    if doc.Description.truthy then
      (.ok (), (s.filter fun r => r.id ≠ doc.id) ++ [doc])
    else
      (.error ⟨"ValidationError", "Path Description is required."⟩, s)
  find f _ s :=
    match f with
    | none => (.ok (some s), s)
    | some m => (.ok (some (s.filter fun r => r.Movie = m)), s)
  findById i _ s := (.ok (s.find? fun r => r.id = i), s)
  findByIdAndDelete i s := (.ok (s.find? fun r => r.id = i), s.filter fun r => r.id ≠ i)

/-- A store whose every operation is rejected with the given error. -/
def failingStore (e : JSError) : Store Unit where
  save _ s := (.error e, s)
  find _ _ s := (.error e, s)
  findById _ _ s := (.error e, s)
  findByIdAndDelete _ s := (.error e, s)

/-- A sample stored review. -/
def sampleReview : Review :=
  ⟨.str "65f0c0ffee65f0c0ffee0001", .str "Great film", .str "65f0c0ffee65f0c0ffee00aa",
    .str "65f0c0ffee65f0c0ffee00bb", .num 3, .num 1, 7, 7⟩

/-- A sample create body without a `Description`. -/
def createNoDescription : CreateBody :=
  ⟨.undefined, .str "65f0c0ffee65f0c0ffee00aa", .str "65f0c0ffee65f0c0ffee00bb"⟩

/-- A sample update body carrying only `LikeCount: 5`. -/
def patchLikesOnly : PatchBody :=
  ⟨.undefined, .num 5, .undefined⟩

/-- A sample update body carrying an empty `Description` and a `null`
`DislikeCount`. -/
def patchEmptyDescription : PatchBody :=
  ⟨.str "", .undefined, .null⟩

/-- A run that ended with an error of the given status handed to `next`
without any store call, leaving the store state `s` as it was. -/
def Result.failedFast {σ : Type} (r : Result σ) (status : Nat) (s : σ) : Prop :=
  r.outcome.isError = true ∧ r.outcome.status = status ∧ r.trace = [] ∧ r.state = s

/-- A run that ended with an error of the given status handed to `next`
(and so sent no response of its own). -/
def Result.failedWith {σ : Type} (r : Result σ) (status : Nat) : Prop :=
  r.outcome.isError = true ∧ r.outcome.status = status

/-- The document `assignFields` produces, field by field. -/
theorem assignFields_eq (now : Nat) (body : PatchBody) (review : Review) :
    assignFields now body review =
      { id := review.id
        Description :=
          if body.Description.truthy = true then body.Description else review.Description
        User := review.User
        Movie := review.Movie
        LikeCount := if body.LikeCount = .undefined then review.LikeCount else body.LikeCount
        DislikeCount :=
          if body.DislikeCount = .undefined then review.DislikeCount else body.DislikeCount
        createdAt := review.createdAt
        updatedAt := now } := by
  by_cases h1 : body.Description.truthy = true <;>
    by_cases h2 : body.LikeCount = .undefined <;>
      by_cases h3 : body.DislikeCount = .undefined <;>
        simp [assignFields, h1, h2, h3]

/-! ## Identifier validation comes first -/

/-- C1: when the identifier is rejected by the validator (the path id of
list-by-movie, get-by-id, update and delete; the `User` or the `Movie` field of
the create body, a missing field being the value `undefined`), the handler ends
with an error of status 400, makes no store call at all and leaves the store
state untouched. This holds for every validator, store and store state. -/
theorem invalid_identifier_fails_fast {σ : Type} (st : Store σ) (s : σ)
    (isValid : JSVal → Bool) (newReview : JSVal → JSVal → JSVal → Review) (now : Nat)
    (id : JSVal) (cbody : CreateBody) (pbody : PatchBody)
    (hid : isValid id = false)
    (hbody : isValid cbody.User = false ∨ isValid cbody.Movie = false) :
    (run st (postRoot isValid newReview cbody) s).failedFast 400 s ∧
    (run st (getMovieById isValid id) s).failedFast 400 s ∧
    (run st (getById isValid id) s).failedFast 400 s ∧
    (run st (patchById isValid now id pbody) s).failedFast 400 s ∧
    (run st (deleteById isValid id) s).failedFast 400 s := by
  have hcreate : (!isValid cbody.User || !isValid cbody.Movie) = true := by
    rcases hbody with h | h <;> simp [h]
  refine ⟨?_, ?_, ?_, ?_, ?_⟩
  · simp [Result.failedFast, postRoot, hcreate, run, Outcome.isError, Outcome.status,
      HttpError.status]
  · simp [Result.failedFast, getMovieById, hid, run, Outcome.isError, Outcome.status,
      HttpError.status]
  · simp [Result.failedFast, getById, hid, run, Outcome.isError, Outcome.status,
      HttpError.status]
  · simp [Result.failedFast, patchById, hid, run, Outcome.isError, Outcome.status,
      HttpError.status]
  · simp [Result.failedFast, deleteById, hid, run, Outcome.isError, Outcome.status,
      HttpError.status]

/-- Witness for C1: a path id that is not 24 hexadecimal digits and a create
body whose `User` field is missing, against the in-memory store holding one
review. -/
theorem invalid_identifier_fails_fast_witness :
    hex24 (.str "not-an-id") = false ∧
    (hex24 (CreateBody.mk (.str "Nice") .undefined (.str "65f0c0ffee65f0c0ffee00bb")).User = false ∨
      hex24 (CreateBody.mk (.str "Nice") .undefined (.str "65f0c0ffee65f0c0ffee00bb")).Movie
        = false) ∧
    ((run memStore (postRoot hex24 sampleNew
        (CreateBody.mk (.str "Nice") .undefined (.str "65f0c0ffee65f0c0ffee00bb")))
        [sampleReview]).failedFast 400 [sampleReview] ∧
      (run memStore (getMovieById hex24 (.str "not-an-id")) [sampleReview]).failedFast 400
        [sampleReview] ∧
      (run memStore (getById hex24 (.str "not-an-id")) [sampleReview]).failedFast 400
        [sampleReview] ∧
      (run memStore (patchById hex24 9 (.str "not-an-id") (PatchBody.mk .undefined (.num 5)
        .undefined)) [sampleReview]).failedFast 400 [sampleReview] ∧
      (run memStore (deleteById hex24 (.str "not-an-id")) [sampleReview]).failedFast 400
        [sampleReview]) :=
  ⟨by decide, Or.inl (by decide),
    invalid_identifier_fails_fast memStore [sampleReview] hex24 sampleNew 9 (.str "not-an-id")
      (CreateBody.mk (.str "Nice") .undefined (.str "65f0c0ffee65f0c0ffee00bb"))
      (PatchBody.mk .undefined (.num 5) .undefined) (by decide) (Or.inl (by decide))⟩

/-! ## Create -/

/-- C2: for a create request whose `User` and `Movie` pass the validator, the
handler makes exactly one store call, the save of the new document, and leaves
the store in the state that save left. If the save is rejected with an error
named `ValidationError`, the handler ends with status 400 and the message
`"Validation error: "` followed by the store's message; as the rejected save is
the only store call, the handler itself persists nothing. If the save is
rejected with any other error the handler ends with status 500. If the save
succeeds the response is 201 with the created review. -/
theorem create_outcomes {σ : Type} (st : Store σ) (s : σ)
    (isValid : JSVal → Bool) (newReview : JSVal → JSVal → JSVal → Review)
    (body : CreateBody)
    (hU : isValid body.User = true) (hM : isValid body.Movie = true) :
    (run st (postRoot isValid newReview body) s).trace
        = [.save (newReview body.Description body.User body.Movie)] ∧
    (run st (postRoot isValid newReview body) s).state
        = (st.save (newReview body.Description body.User body.Movie) s).2 ∧
    (∀ e : JSError,
      (st.save (newReview body.Description body.User body.Movie) s).1 = .error e →
      e.name = "ValidationError" →
        (run st (postRoot isValid newReview body) s).outcome
            = .next ⟨"Validation error: " ++ e.message, some 400⟩ ∧
          (run st (postRoot isValid newReview body) s).failedWith 400) ∧
    (∀ e : JSError,
      (st.save (newReview body.Description body.User body.Movie) s).1 = .error e →
      e.name ≠ "ValidationError" →
        (run st (postRoot isValid newReview body) s).failedWith 500) ∧
    ((st.save (newReview body.Description body.User body.Movie) s).1 = .ok () →
      (run st (postRoot isValid newReview body) s).outcome
        = .json 201 (.messageReview "Review created successfully"
            (newReview body.Description body.User body.Movie))) := by
  refine ⟨?_, ?_, ?_, ?_, ?_⟩
  · cases hr : (st.save (newReview body.Description body.User body.Movie) s).1 with
    | ok u => simp [postRoot, hU, hM, run, Result.after, hr]
    | error e =>
      by_cases hn : e.name = "ValidationError" <;>
        simp [postRoot, hU, hM, run, Result.after, hr, hn]
  · cases hr : (st.save (newReview body.Description body.User body.Movie) s).1 with
    | ok u => simp [postRoot, hU, hM, run, Result.after, hr]
    | error e =>
      by_cases hn : e.name = "ValidationError" <;>
        simp [postRoot, hU, hM, run, Result.after, hr, hn]
  · intro e hr hn
    simp [Result.failedWith, postRoot, hU, hM, run, Result.after, hr, hn, Outcome.isError,
      Outcome.status, HttpError.status]
  · intro e hr hn
    simp [Result.failedWith, postRoot, hU, hM, run, Result.after, hr, hn, Outcome.isError,
      Outcome.status, HttpError.status]
  · intro hr
    simp [postRoot, hU, hM, run, Result.after, hr]

/-- Witness for C2: a create body without a description against the empty
in-memory store, whose save rejects it with a `ValidationError`: status 400,
the store's message after the fixed text, and the store still empty. -/
theorem create_outcomes_witness :
    hex24 createNoDescription.User = true ∧ hex24 createNoDescription.Movie = true ∧
    (run memStore (postRoot hex24 sampleNew createNoDescription) []).outcome
      = .next ⟨"Validation error: Path Description is required.", some 400⟩ ∧
    (run memStore (postRoot hex24 sampleNew createNoDescription) []).state = [] :=
  ⟨by decide, by decide,
    ((create_outcomes memStore [] hex24 sampleNew createNoDescription (by decide)
      (by decide)).2.2.1 ⟨"ValidationError", "Path Description is required."⟩ rfl rfl).1,
    (create_outcomes memStore [] hex24 sampleNew createNoDescription (by decide)
      (by decide)).2.1⟩

/-! ## Update -/

/-- C3: for a valid id whose lookup finds a review, the update handler makes
exactly two store calls, the lookup and the save of one document `saved`, and
when that save succeeds it responds 200 with the same `saved`. That document
has the id, `User`, `Movie` and `createdAt` of the stored review, and each of
`Description`, `LikeCount`, `DislikeCount` that is absent from the body
(`undefined`) keeps the stored value; so it can differ from the stored review
only in `updatedAt` and in the fields present in the body. -/
theorem update_frame {σ : Type} (st : Store σ) (s : σ) (isValid : JSVal → Bool) (now : Nat)
    (id : JSVal) (body : PatchBody) (review : Review)
    (hid : isValid id = true)
    (hfound : (st.findById id [] s).1 = .ok (some review)) :
    ∃ saved : Review,
      (run st (patchById isValid now id body) s).trace = [.findById id [], .save saved] ∧
      ((st.save saved (st.findById id [] s).2).1 = .ok () →
        (run st (patchById isValid now id body) s).outcome
          = .json 200 (.messageReview "Review updated successfully" saved)) ∧
      saved.id = review.id ∧ saved.User = review.User ∧ saved.Movie = review.Movie ∧
      saved.createdAt = review.createdAt ∧
      (body.Description = .undefined → saved.Description = review.Description) ∧
      (body.LikeCount = .undefined → saved.LikeCount = review.LikeCount) ∧
      (body.DislikeCount = .undefined → saved.DislikeCount = review.DislikeCount) := by
  refine ⟨assignFields now body review, ?_, ?_, ?_, ?_, ?_, ?_, ?_, ?_, ?_⟩
  · cases hr : (st.save (assignFields now body review) (st.findById id [] s).2).1 <;>
      simp [patchById, hid, run, Result.after, hfound, hr]
  · intro hr
    simp [patchById, hid, run, Result.after, hfound, hr]
  · simp [assignFields_eq]
  · simp [assignFields_eq]
  · simp [assignFields_eq]
  · simp [assignFields_eq]
  · intro h
    simp [assignFields_eq, h, JSVal.truthy]
  · intro h
    simp [assignFields_eq, h]
  · intro h
    simp [assignFields_eq, h]

/-- Witness for C3: the body `{ LikeCount: 5 }` on the stored sample review:
the saved and returned review is the stored one with `LikeCount` 5 and the new
time stamp. -/
theorem update_frame_witness :
    hex24 (.str "65f0c0ffee65f0c0ffee0001") = true ∧
    (memStore.findById (.str "65f0c0ffee65f0c0ffee0001") [] [sampleReview]).1
      = .ok (some sampleReview) ∧
    ∃ saved : Review,
      (run memStore (patchById hex24 9 (.str "65f0c0ffee65f0c0ffee0001") patchLikesOnly)
        [sampleReview]).trace = [.findById (.str "65f0c0ffee65f0c0ffee0001") [], .save saved] ∧
      ((memStore.save saved (memStore.findById (.str "65f0c0ffee65f0c0ffee0001") []
          [sampleReview]).2).1 = .ok () →
        (run memStore (patchById hex24 9 (.str "65f0c0ffee65f0c0ffee0001") patchLikesOnly)
          [sampleReview]).outcome
          = .json 200 (.messageReview "Review updated successfully" saved)) ∧
      saved.id = sampleReview.id ∧ saved.User = sampleReview.User ∧
      saved.Movie = sampleReview.Movie ∧ saved.createdAt = sampleReview.createdAt ∧
      (patchLikesOnly.Description = .undefined → saved.Description = sampleReview.Description) ∧
      (patchLikesOnly.LikeCount = .undefined → saved.LikeCount = sampleReview.LikeCount) ∧
      (patchLikesOnly.DislikeCount = .undefined →
        saved.DislikeCount = sampleReview.DislikeCount) :=
  ⟨by decide, by rfl,
    update_frame memStore [sampleReview] hex24 9 (.str "65f0c0ffee65f0c0ffee0001")
      patchLikesOnly sampleReview (by decide) (by rfl)⟩

/-- C4 as stated fails on the code: an update body that carries an empty
`Description` (present, not `undefined`) and a `null` `DislikeCount`. The
handler saves and returns the review with the `DislikeCount` of the body but
with the stored description, not the empty one of the body. -/
theorem update_skips_empty_description :
    patchEmptyDescription.Description ≠ .undefined ∧
    (run memStore (patchById hex24 9 (.str "65f0c0ffee65f0c0ffee0001") patchEmptyDescription)
      [sampleReview]).trace
      = [.findById (.str "65f0c0ffee65f0c0ffee0001") [],
          .save { sampleReview with DislikeCount := .null, updatedAt := 9 }] ∧
    (run memStore (patchById hex24 9 (.str "65f0c0ffee65f0c0ffee0001") patchEmptyDescription)
      [sampleReview]).outcome
      = .json 200 (.messageReview "Review updated successfully"
          { sampleReview with DislikeCount := .null, updatedAt := 9 }) ∧
    ({ sampleReview with DislikeCount := .null, updatedAt := 9 } : Review).Description
      ≠ patchEmptyDescription.Description := by
  decide

/-- C4, amended: for a valid id whose lookup finds a review, the document the
update handler saves, and returns when the save succeeds, has exactly the
body's value for `LikeCount` and for `DislikeCount` whenever that field is
present in the body (any value other than `undefined`, so also zero and
`null`), and exactly the body's value for `Description` whenever that value is
truthy; a falsy `Description` (the empty string, `null`, `0`, `false`) is
treated like an absent one and the stored description is kept. -/
theorem update_applies_fields {σ : Type} (st : Store σ) (s : σ) (isValid : JSVal → Bool)
    (now : Nat) (id : JSVal) (body : PatchBody) (review : Review)
    (hid : isValid id = true)
    (hfound : (st.findById id [] s).1 = .ok (some review)) :
    ∃ saved : Review,
      (run st (patchById isValid now id body) s).trace = [.findById id [], .save saved] ∧
      ((st.save saved (st.findById id [] s).2).1 = .ok () →
        (run st (patchById isValid now id body) s).outcome
          = .json 200 (.messageReview "Review updated successfully" saved)) ∧
      (body.LikeCount ≠ .undefined → saved.LikeCount = body.LikeCount) ∧
      (body.DislikeCount ≠ .undefined → saved.DislikeCount = body.DislikeCount) ∧
      (body.Description.truthy = true → saved.Description = body.Description) ∧
      (body.Description.truthy = false → saved.Description = review.Description) := by
  refine ⟨assignFields now body review, ?_, ?_, ?_, ?_, ?_, ?_⟩
  · cases hr : (st.save (assignFields now body review) (st.findById id [] s).2).1 <;>
      simp [patchById, hid, run, Result.after, hfound, hr]
  · intro hr
    simp [patchById, hid, run, Result.after, hfound, hr]
  · intro h
    simp [assignFields_eq, h]
  · intro h
    simp [assignFields_eq, h]
  · intro h
    simp [assignFields_eq, h]
  · intro h
    simp [assignFields_eq, h]

/-- Witness for the amended C4: the body with an empty `Description` and a
`null` `DislikeCount` on the stored sample review. -/
theorem update_applies_fields_witness :
    hex24 (.str "65f0c0ffee65f0c0ffee0001") = true ∧
    (memStore.findById (.str "65f0c0ffee65f0c0ffee0001") [] [sampleReview]).1
      = .ok (some sampleReview) ∧
    ∃ saved : Review,
      (run memStore (patchById hex24 9 (.str "65f0c0ffee65f0c0ffee0001")
        patchEmptyDescription) [sampleReview]).trace
        = [.findById (.str "65f0c0ffee65f0c0ffee0001") [], .save saved] ∧
      ((memStore.save saved (memStore.findById (.str "65f0c0ffee65f0c0ffee0001") []
          [sampleReview]).2).1 = .ok () →
        (run memStore (patchById hex24 9 (.str "65f0c0ffee65f0c0ffee0001")
          patchEmptyDescription) [sampleReview]).outcome
          = .json 200 (.messageReview "Review updated successfully" saved)) ∧
      (patchEmptyDescription.LikeCount ≠ .undefined →
        saved.LikeCount = patchEmptyDescription.LikeCount) ∧
      (patchEmptyDescription.DislikeCount ≠ .undefined →
        saved.DislikeCount = patchEmptyDescription.DislikeCount) ∧
      (patchEmptyDescription.Description.truthy = true →
        saved.Description = patchEmptyDescription.Description) ∧
      (patchEmptyDescription.Description.truthy = false →
        saved.Description = sampleReview.Description) :=
  ⟨by decide, by rfl,
    update_applies_fields memStore [sampleReview] hex24 9 (.str "65f0c0ffee65f0c0ffee0001")
      patchEmptyDescription sampleReview (by decide) (by rfl)⟩

/-! ## Not found -/

/-- C5: for a valid id, when the lookup finds no record (it resolves to
`null`) get-by-id and update both end with an error of status 404, and update
makes no store call besides the lookup, so it saves nothing; when the lookup of
get-by-id resolves to a review, get-by-id responds 200 with that review. -/
theorem missing_review_is_404 {σ : Type} (st : Store σ) (s : σ) (isValid : JSVal → Bool)
    (now : Nat) (id : JSVal) (body : PatchBody)
    (hid : isValid id = true) :
    ((st.findById id [("User", "UserName"), ("Movie", "Name")] s).1 = .ok none →
      (run st (getById isValid id) s).failedWith 404) ∧
    ((st.findById id [] s).1 = .ok none →
      (run st (patchById isValid now id body) s).failedWith 404 ∧
      (run st (patchById isValid now id body) s).trace = [.findById id []] ∧
      (run st (patchById isValid now id body) s).state = (st.findById id [] s).2) ∧
    (∀ review : Review,
      (st.findById id [("User", "UserName"), ("Movie", "Name")] s).1 = .ok (some review) →
      (run st (getById isValid id) s).outcome = .json 200 (.review review)) := by
  refine ⟨?_, ?_, ?_⟩
  · intro h
    simp [Result.failedWith, getById, hid, run, Result.after, h, Outcome.isError,
      Outcome.status, HttpError.status]
  · intro h
    simp [Result.failedWith, patchById, hid, run, Result.after, h, Outcome.isError,
      Outcome.status, HttpError.status]
  · intro review h
    simp [getById, hid, run, Result.after, h]

/-- Witness for C5: a well-formed id the in-memory store does not hold, and
the same handlers on the id it does hold. -/
theorem missing_review_is_404_witness :
    hex24 (.str "65f0c0ffee65f0c0ffee0002") = true ∧
    (run memStore (getById hex24 (.str "65f0c0ffee65f0c0ffee0002")) [sampleReview]).failedWith
      404 ∧
    (run memStore (patchById hex24 9 (.str "65f0c0ffee65f0c0ffee0002") patchLikesOnly)
      [sampleReview]).failedWith 404 ∧
    (run memStore (patchById hex24 9 (.str "65f0c0ffee65f0c0ffee0002") patchLikesOnly)
      [sampleReview]).trace = [.findById (.str "65f0c0ffee65f0c0ffee0002") []] ∧
    (run memStore (patchById hex24 9 (.str "65f0c0ffee65f0c0ffee0002") patchLikesOnly)
      [sampleReview]).state = [sampleReview] :=
  ⟨by decide,
    (missing_review_is_404 memStore [sampleReview] hex24 9 (.str "65f0c0ffee65f0c0ffee0002")
      patchLikesOnly (by decide)).1 (by rfl),
    ((missing_review_is_404 memStore [sampleReview] hex24 9 (.str "65f0c0ffee65f0c0ffee0002")
      patchLikesOnly (by decide)).2.1 (by rfl)).1,
    ((missing_review_is_404 memStore [sampleReview] hex24 9 (.str "65f0c0ffee65f0c0ffee0002")
      patchLikesOnly (by decide)).2.1 (by rfl)).2.1,
    ((missing_review_is_404 memStore [sampleReview] hex24 9 (.str "65f0c0ffee65f0c0ffee0002")
      patchLikesOnly (by decide)).2.1 (by rfl)).2.2⟩

/-! ## Delete -/

/-- C6: for a valid id, whenever the store's delete call does not fail,
whether it found a record (`some`) or not (`none`), the delete handler responds
200 with the confirmation message; in no case does it end with status 404; and
running the handler a second time on the state the first run left succeeds
again when the store does not fail. -/
theorem delete_is_unconditional {σ : Type} (st : Store σ) (s : σ) (isValid : JSVal → Bool)
    (id : JSVal) (hid : isValid id = true) :
    (∀ found : Option Review, (st.findByIdAndDelete id s).1 = .ok found →
      (run st (deleteById isValid id) s).outcome
        = .json 200 (.message "Review deleted successfully")) ∧
    (run st (deleteById isValid id) s).outcome.status ≠ 404 ∧
    (∀ first second : Option Review, (st.findByIdAndDelete id s).1 = .ok first →
      (st.findByIdAndDelete id (run st (deleteById isValid id) s).state).1 = .ok second →
      (run st (deleteById isValid id) s).outcome
        = .json 200 (.message "Review deleted successfully") ∧
      (run st (deleteById isValid id) (run st (deleteById isValid id) s).state).outcome
        = .json 200 (.message "Review deleted successfully")) := by
  have once : ∀ (t : σ) (found : Option Review), (st.findByIdAndDelete id t).1 = .ok found →
      (run st (deleteById isValid id) t).outcome
        = .json 200 (.message "Review deleted successfully") := by
    intro t found h
    simp [deleteById, hid, run, Result.after, h]
  refine ⟨once s, ?_, ?_⟩
  · cases hr : (st.findByIdAndDelete id s).1 <;>
      simp [deleteById, hid, run, Result.after, hr, Outcome.status, HttpError.status]
  · intro first second h1 h2
    exact ⟨once s first h1, once _ second h2⟩

/-- Witness for C6: deleting the stored sample review twice in a row from the
in-memory store: the first call finds it, the second finds nothing, both
respond 200. -/
theorem delete_is_unconditional_witness :
    hex24 (.str "65f0c0ffee65f0c0ffee0001") = true ∧
    (memStore.findByIdAndDelete (.str "65f0c0ffee65f0c0ffee0001") [sampleReview]).1
      = .ok (some sampleReview) ∧
    (memStore.findByIdAndDelete (.str "65f0c0ffee65f0c0ffee0001")
      (run memStore (deleteById hex24 (.str "65f0c0ffee65f0c0ffee0001")) [sampleReview]).state).1
      = .ok none ∧
    (run memStore (deleteById hex24 (.str "65f0c0ffee65f0c0ffee0001")) [sampleReview]).outcome
      = .json 200 (.message "Review deleted successfully") ∧
    (run memStore (deleteById hex24 (.str "65f0c0ffee65f0c0ffee0001"))
      (run memStore (deleteById hex24 (.str "65f0c0ffee65f0c0ffee0001"))
        [sampleReview]).state).outcome
      = .json 200 (.message "Review deleted successfully") :=
  ⟨by decide, by rfl, by rfl,
    (delete_is_unconditional memStore [sampleReview] hex24 (.str "65f0c0ffee65f0c0ffee0001")
      (by decide)).2.2 (some sampleReview) none (by rfl) (by rfl)⟩

/-! ## List by movie -/

/-- C7: for a valid movie id, when the filtered find resolves to the empty
sequence the handler responds 200 with an empty `reviews` list; whenever the
find resolves to a sequence, empty or not, the handler responds 200 with that
sequence and so not with 404; and the handler ends with status 404 only when
the find resolved to no sequence at all (a falsy value). -/
theorem list_by_movie_sequence {σ : Type} (st : Store σ) (s : σ) (isValid : JSVal → Bool)
    (id : JSVal) (hid : isValid id = true) :
    ((st.find (some id) [("User", "UserName"), ("Movie", "Name")] s).1 = .ok (some []) →
      (run st (getMovieById isValid id) s).outcome = .json 200 (.reviews (some []))) ∧
    (∀ reviews : List Review,
      (st.find (some id) [("User", "UserName"), ("Movie", "Name")] s).1 = .ok (some reviews) →
      (run st (getMovieById isValid id) s).outcome = .json 200 (.reviews (some reviews)) ∧
      (run st (getMovieById isValid id) s).outcome.status ≠ 404) ∧
    ((run st (getMovieById isValid id) s).outcome.status = 404 →
      (st.find (some id) [("User", "UserName"), ("Movie", "Name")] s).1 = .ok none) := by
  refine ⟨?_, ?_, ?_⟩
  · intro h
    simp [getMovieById, hid, run, Result.after, h]
  · intro reviews h
    simp [getMovieById, hid, run, Result.after, h, Outcome.status]
  · cases hr : (st.find (some id) [("User", "UserName"), ("Movie", "Name")] s).1 with
    | error e =>
      simp [getMovieById, hid, run, Result.after, hr, Outcome.status, HttpError.status]
    | ok found =>
      cases found <;>
        simp [getMovieById, hid, run, Result.after, hr, Outcome.status, HttpError.status]

/-- Witness for C7: a well-formed movie id for which the in-memory store holds
no review. -/
theorem list_by_movie_sequence_witness :
    hex24 (.str "65f0c0ffee65f0c0ffee00cc") = true ∧
    (memStore.find (some (.str "65f0c0ffee65f0c0ffee00cc"))
      [("User", "UserName"), ("Movie", "Name")] [sampleReview]).1 = .ok (some []) ∧
    (run memStore (getMovieById hex24 (.str "65f0c0ffee65f0c0ffee00cc")) [sampleReview]).outcome
      = .json 200 (.reviews (some [])) :=
  ⟨by decide, by rfl,
    (list_by_movie_sequence memStore [sampleReview] hex24 (.str "65f0c0ffee65f0c0ffee00cc")
      (by decide)).1 (by rfl)⟩

/-! ## Store failures -/

/-- C8: in every handler, when a store call is rejected the handler ends with
an error handed to `next` whose status is 500, instead of a response: create
when the error is not named `ValidationError`, list-all, list-by-movie,
get-by-id, update (whether the lookup or the save is rejected) and delete.
The error of list-by-movie is built without a status code and has status 500
by the default of the Error Signal. -/
theorem store_failure_is_500 {σ : Type} (st : Store σ) (s : σ) (isValid : JSVal → Bool)
    (newReview : JSVal → JSVal → JSVal → Review) (now : Nat)
    (id : JSVal) (cbody : CreateBody) (pbody : PatchBody)
    (hid : isValid id = true)
    (hU : isValid cbody.User = true) (hM : isValid cbody.Movie = true) :
    (∀ e : JSError,
      (st.save (newReview cbody.Description cbody.User cbody.Movie) s).1 = .error e →
      e.name ≠ "ValidationError" →
      (run st (postRoot isValid newReview cbody) s).failedWith 500) ∧
    (∀ e : JSError,
      (st.find none [("User", "UserName"), ("Movie", "Title")] s).1 = .error e →
      (run st getRoot s).failedWith 500) ∧
    (∀ e : JSError,
      (st.find (some id) [("User", "UserName"), ("Movie", "Name")] s).1 = .error e →
      (run st (getMovieById isValid id) s).failedWith 500 ∧
      (run st (getMovieById isValid id) s).outcome
        = .next ⟨"Fetching Reviews Failed ,Please Try again", none⟩) ∧
    (∀ e : JSError,
      (st.findById id [("User", "UserName"), ("Movie", "Name")] s).1 = .error e →
      (run st (getById isValid id) s).failedWith 500) ∧
    (∀ e : JSError, (st.findById id [] s).1 = .error e →
      (run st (patchById isValid now id pbody) s).failedWith 500) ∧
    (∀ (e : JSError) (review : Review), (st.findById id [] s).1 = .ok (some review) →
      (st.save (assignFields now pbody review) (st.findById id [] s).2).1 = .error e →
      (run st (patchById isValid now id pbody) s).failedWith 500) ∧
    (∀ e : JSError, (st.findByIdAndDelete id s).1 = .error e →
      (run st (deleteById isValid id) s).failedWith 500) := by
  refine ⟨?_, ?_, ?_, ?_, ?_, ?_, ?_⟩
  · intro e h hn
    simp [Result.failedWith, postRoot, hU, hM, run, Result.after, h, hn, Outcome.isError,
      Outcome.status, HttpError.status]
  · intro e h
    simp [Result.failedWith, getRoot, run, Result.after, h, Outcome.isError,
      Outcome.status, HttpError.status]
  · intro e h
    simp [Result.failedWith, getMovieById, hid, run, Result.after, h, Outcome.isError,
      Outcome.status, HttpError.status]
  · intro e h
    simp [Result.failedWith, getById, hid, run, Result.after, h, Outcome.isError,
      Outcome.status, HttpError.status]
  · intro e h
    simp [Result.failedWith, patchById, hid, run, Result.after, h, Outcome.isError,
      Outcome.status, HttpError.status]
  · intro e review h hs
    simp [Result.failedWith, patchById, hid, run, Result.after, h, hs, Outcome.isError,
      Outcome.status, HttpError.status]
  · intro e h
    simp [Result.failedWith, deleteById, hid, run, Result.after, h, Outcome.isError,
      Outcome.status, HttpError.status]

/-- Witness for C8: list-by-movie and delete against a store whose every call
is rejected with a network error. -/
theorem store_failure_is_500_witness :
    hex24 (.str "65f0c0ffee65f0c0ffee00bb") = true ∧
    hex24 createNoDescription.User = true ∧ hex24 createNoDescription.Movie = true ∧
    (run (failingStore ⟨"MongoNetworkError", "connection refused"⟩)
      (getMovieById hex24 (.str "65f0c0ffee65f0c0ffee00bb")) ()).failedWith 500 ∧
    (run (failingStore ⟨"MongoNetworkError", "connection refused"⟩)
      (deleteById hex24 (.str "65f0c0ffee65f0c0ffee00bb")) ()).failedWith 500 :=
  ⟨by decide, by decide, by decide,
    ((store_failure_is_500 (failingStore ⟨"MongoNetworkError", "connection refused"⟩) ()
      hex24 sampleNew 9 (.str "65f0c0ffee65f0c0ffee00bb") createNoDescription patchLikesOnly
      (by decide) (by decide) (by decide)).2.2.1
      ⟨"MongoNetworkError", "connection refused"⟩ rfl).1,
    (store_failure_is_500 (failingStore ⟨"MongoNetworkError", "connection refused"⟩) ()
      hex24 sampleNew 9 (.str "65f0c0ffee65f0c0ffee00bb") createNoDescription patchLikesOnly
      (by decide) (by decide) (by decide)).2.2.2.2.2.2
      ⟨"MongoNetworkError", "connection refused"⟩ rfl⟩

/-! ## Reference resolution -/

/-- C9 fails on the code. For the well-formed id `65f0c0ffee65f0c0ffee00bb`,
list-all asks the store to resolve the movie reference to `Title`, while
list-by-movie and get-by-id ask for `Name`: the populate requests of the three
handlers are not identical. -/
theorem populate_requests_differ :
    (run memStore getRoot [sampleReview]).trace
      = [.find none [("User", "UserName"), ("Movie", "Title")]] ∧
    (run memStore (getMovieById hex24 (.str "65f0c0ffee65f0c0ffee00bb")) [sampleReview]).trace
      = [.find (some (.str "65f0c0ffee65f0c0ffee00bb"))
          [("User", "UserName"), ("Movie", "Name")]] ∧
    (run memStore (getById hex24 (.str "65f0c0ffee65f0c0ffee00bb")) [sampleReview]).trace
      = [.findById (.str "65f0c0ffee65f0c0ffee00bb") [("User", "UserName"), ("Movie", "Name")]] ∧
    ([("User", "UserName"), ("Movie", "Name")] : Populate)
      ≠ [("User", "UserName"), ("Movie", "Title")] := by
  decide

/-! ## List all -/

/-- C10: for every sequence the store's unfiltered find resolves to, list-all
responds with status 200 and a `reviews` list equal to that sequence (hence
the same length, elements and order), after exactly one store call. -/
theorem list_all_returns_sequence {σ : Type} (st : Store σ) (s : σ) (reviews : List Review)
    (hfind : (st.find none [("User", "UserName"), ("Movie", "Title")] s).1
      = .ok (some reviews)) :
    ∃ sent : List Review,
      (run st getRoot s).outcome = .json 200 (.reviews (some sent)) ∧
      sent = reviews ∧ sent.length = reviews.length ∧
      (run st getRoot s).outcome.status = 200 ∧
      (run st getRoot s).trace = [.find none [("User", "UserName"), ("Movie", "Title")]] := by
  refine ⟨reviews, ?_, rfl, rfl, ?_, ?_⟩
  · simp [getRoot, run, Result.after, hfind]
  · simp [getRoot, run, Result.after, hfind, Outcome.status]
  · simp [getRoot, run, Result.after, hfind]

/-- Witness for C10: the in-memory store holding two reviews. -/
theorem list_all_returns_sequence_witness :
    (memStore.find none [("User", "UserName"), ("Movie", "Title")]
      [sampleReview, sampleNew (.str "Fine") (.str "65f0c0ffee65f0c0ffee00aa")
        (.str "65f0c0ffee65f0c0ffee00bb")]).1
      = .ok (some [sampleReview, sampleNew (.str "Fine") (.str "65f0c0ffee65f0c0ffee00aa")
        (.str "65f0c0ffee65f0c0ffee00bb")]) ∧
    ∃ sent : List Review,
      (run memStore getRoot [sampleReview, sampleNew (.str "Fine")
        (.str "65f0c0ffee65f0c0ffee00aa") (.str "65f0c0ffee65f0c0ffee00bb")]).outcome
        = .json 200 (.reviews (some sent)) ∧
      sent = [sampleReview, sampleNew (.str "Fine") (.str "65f0c0ffee65f0c0ffee00aa")
        (.str "65f0c0ffee65f0c0ffee00bb")] ∧
      sent.length = [sampleReview, sampleNew (.str "Fine") (.str "65f0c0ffee65f0c0ffee00aa")
        (.str "65f0c0ffee65f0c0ffee00bb")].length ∧
      (run memStore getRoot [sampleReview, sampleNew (.str "Fine")
        (.str "65f0c0ffee65f0c0ffee00aa") (.str "65f0c0ffee65f0c0ffee00bb")]).outcome.status
        = 200 ∧
      (run memStore getRoot [sampleReview, sampleNew (.str "Fine")
        (.str "65f0c0ffee65f0c0ffee00aa") (.str "65f0c0ffee65f0c0ffee00bb")]).trace
        = [.find none [("User", "UserName"), ("Movie", "Title")]] :=
  ⟨by rfl,
    list_all_returns_sequence memStore _ _ (by rfl)⟩

end ReviewRoutes
